import Mathlib

set_option maxHeartbeats 1000000

/-!
Shallow embedding of `src/main.go` (a Mapbox geocoding / directions client).

Machine `float64` values are embedded as `ℚ`: the program performs no
floating-point arithmetic on coordinates, distances or durations — it only
copies values out of the decoded response and formats them — so exact
rationals are a faithful carrier.  Fallible Go functions returning
`(T, error)` are embedded as a `GoResult` which also records the panic
outcome of an out-of-bounds slice index.  The network round trip
(`http.Get` / `io.ReadAll`) is embedded as a `FetchOutcome` input: the
transport either fails, the body fails to read, or a body is delivered;
a delivered body is either syntactically invalid JSON or a parsed JSON
value (`Json`).  `encoding/json`'s mapping of a JSON value onto the Go
struct types of the source (unknown keys ignored, `null` leaves the
current value, case-insensitive key match against the lowercase field
tags, type mismatch is an error) is embedded by the `unmarshal*`
functions below.
-/

/-- Go struct `LocationInfo` from `src/main.go`. -/
structure LocationInfo where
  latitude : ℚ
  longitude : ℚ
  country : String
  region : String
  city : String
  placeName : String
deriving DecidableEq, Repr

/-- Go struct `Context` (one administrative context entry, JSON tags `id`, `text`). -/
structure Context where
  id : String
  text : String
deriving DecidableEq, Repr

/-- Go struct `Feature` (JSON tags `type`, `place_name`, `center`, `context`). -/
structure Feature where
  type : String
  placeName : String
  center : List ℚ
  context : List Context
deriving DecidableEq, Repr

/-- Go struct `GeocodeResponse` (JSON tags `type`, `features`). -/
structure GeocodeResponse where
  type : String
  features : List Feature
deriving DecidableEq, Repr

/-- Go struct `Geometry` (JSON tag `coordinates`). -/
structure Geometry where
  coordinates : List (List ℚ)
deriving DecidableEq, Repr

/-- Go struct `Route` (JSON tags `distance`, `duration`, `geometry`). -/
structure Route where
  distance : ℚ
  duration : ℚ
  geometry : Geometry
deriving DecidableEq, Repr

/-- Go struct `DirectionsResponse` (JSON tag `routes`). -/
structure DirectionsResponse where
  routes : List Route
deriving DecidableEq, Repr

/-- A parsed JSON value (the input to the modelled `json.Unmarshal`). -/
inductive Json where
  | null : Json
  | bool (b : Bool) : Json
  | num (q : ℚ) : Json
  | str (s : String) : Json
  | arr (elems : List Json) : Json
  | obj (fields : List (String × Json)) : Json

/-- Lowercase an ASCII capital letter, identity otherwise (ASCII fold of one char). -/
def asciiLower (c : Char) : Char :=
  if 'A' ≤ c ∧ c ≤ 'Z' then Char.ofNat (c.toNat + 32) else c

/-- ASCII-fold an entire string to lowercase. -/
def asciiFold (s : String) : String := String.mk (s.data.map asciiLower)

/-- Key matching of `encoding/json`: the incoming object key matches a struct
field's (lowercase) JSON tag up to ASCII case folding. -/
def keyMatches (k tag : String) : Bool := asciiFold k == tag

/-- Decode a JSON value into a Go `string` field holding `cur`:
`null` leaves the field, a JSON string replaces it, anything else errors. -/
def decodeStringField (cur : String) : Json → Except String String
  | Json.null => Except.ok cur
  | Json.str s => Except.ok s
  | _ => Except.error "json: cannot unmarshal value into Go value of type string"

/-- Decode a JSON value into a Go `float64` field holding `cur`. -/
def decodeFloatField (cur : ℚ) : Json → Except String ℚ
  | Json.null => Except.ok cur
  | Json.num q => Except.ok q
  | _ => Except.error "json: cannot unmarshal value into Go value of type float64"

/-- Decode a JSON value as one element of a `[]float64` (zero value `0`). -/
def decodeFloatElem : Json → Except String ℚ
  | Json.null => Except.ok 0
  | Json.num q => Except.ok q
  | _ => Except.error "json: cannot unmarshal value into Go value of type float64"

/-- Decode a JSON value as one element of a `[][]float64` (zero value `[]`). -/
def decodeFloatListElem : Json → Except String (List ℚ)
  | Json.null => Except.ok []
  | Json.arr xs => xs.mapM decodeFloatElem
  | _ => Except.error "json: cannot unmarshal value into Go value of type []float64"

/-- Decode a JSON value as one element of a `[]Context` (zero value is the zero struct). -/
def decodeContextElem : Json → Except String Context
  | Json.null => Except.ok ⟨"", ""⟩
  | Json.obj fields =>
      fields.foldlM (fun c kv =>
        if keyMatches kv.1 "id" then
          (decodeStringField c.id kv.2).map (fun s => { c with id := s })
        else if keyMatches kv.1 "text" then
          (decodeStringField c.text kv.2).map (fun s => { c with text := s })
        else Except.ok c) ⟨"", ""⟩
  | _ => Except.error "json: cannot unmarshal value into Go value of type main.Context"

/-- Decode a JSON value as one element of a `[]Feature`. -/
def decodeFeatureElem : Json → Except String Feature
  | Json.null => Except.ok ⟨"", "", [], []⟩
  | Json.obj fields =>
      fields.foldlM (fun f kv =>
        if keyMatches kv.1 "type" then
          (decodeStringField f.type kv.2).map (fun s => { f with type := s })
        else if keyMatches kv.1 "place_name" then
          (decodeStringField f.placeName kv.2).map (fun s => { f with placeName := s })
        else if keyMatches kv.1 "center" then
          match kv.2 with
          | Json.null => Except.ok f
          | Json.arr xs => (xs.mapM decodeFloatElem).map (fun qs => { f with center := qs })
          | _ => Except.error "json: cannot unmarshal value into Go value of type []float64"
        else if keyMatches kv.1 "context" then
          match kv.2 with
          | Json.null => Except.ok f
          | Json.arr xs => (xs.mapM decodeContextElem).map (fun cs => { f with context := cs })
          | _ => Except.error "json: cannot unmarshal value into Go value of type []main.Context"
        else Except.ok f) ⟨"", "", [], []⟩
  | _ => Except.error "json: cannot unmarshal value into Go value of type main.Feature"

/-- One step of decoding a `GeocodeResponse` object: dispatch one key/value
pair onto the struct's two tagged fields, ignoring unknown keys. -/
def geoStep (r : GeocodeResponse) (kv : String × Json) : Except String GeocodeResponse :=
  if keyMatches kv.1 "type" then
    (decodeStringField r.type kv.2).map (fun s => { r with type := s })
  else if keyMatches kv.1 "features" then
    match kv.2 with
    | Json.null => Except.ok r
    | Json.arr xs => (xs.mapM decodeFeatureElem).map (fun fs => { r with features := fs })
    | _ => Except.error "json: cannot unmarshal value into Go value of type []main.Feature"
  else Except.ok r

/-- Model of `json.Unmarshal(body, &geocodeResp)` on an already-parsed JSON value. -/
def unmarshalGeocode : Json → Except String GeocodeResponse
  | Json.null => Except.ok ⟨"", []⟩
  | Json.obj fields => fields.foldlM geoStep ⟨"", []⟩
  | _ => Except.error "json: cannot unmarshal value into Go value of type main.GeocodeResponse"

/-- Decode a JSON value into the `Geometry` field holding `cur`. -/
def decodeGeometryField (cur : Geometry) : Json → Except String Geometry
  | Json.null => Except.ok cur
  | Json.obj fields =>
      fields.foldlM (fun g kv =>
        if keyMatches kv.1 "coordinates" then
          match kv.2 with
          | Json.null => Except.ok g
          | Json.arr xs => (xs.mapM decodeFloatListElem).map (fun cs => { g with coordinates := cs })
          | _ => Except.error "json: cannot unmarshal value into Go value of type [][]float64"
        else Except.ok g) cur
  | _ => Except.error "json: cannot unmarshal value into Go value of type main.Geometry"

/-- Decode a JSON value as one element of a `[]Route`. -/
def decodeRouteElem : Json → Except String Route
  | Json.null => Except.ok ⟨0, 0, ⟨[]⟩⟩
  | Json.obj fields =>
      fields.foldlM (fun r kv =>
        if keyMatches kv.1 "distance" then
          (decodeFloatField r.distance kv.2).map (fun q => { r with distance := q })
        else if keyMatches kv.1 "duration" then
          (decodeFloatField r.duration kv.2).map (fun q => { r with duration := q })
        else if keyMatches kv.1 "geometry" then
          (decodeGeometryField r.geometry kv.2).map (fun g => { r with geometry := g })
        else Except.ok r) ⟨0, 0, ⟨[]⟩⟩
  | _ => Except.error "json: cannot unmarshal value into Go value of type main.Route"

/-- Model of `json.Unmarshal(body, &directionsResp)` on an already-parsed JSON value. -/
def unmarshalDirections : Json → Except String DirectionsResponse
  | Json.null => Except.ok ⟨[]⟩
  | Json.obj fields =>
      fields.foldlM (fun r kv =>
        if keyMatches kv.1 "routes" then
          match kv.2 with
          | Json.null => Except.ok r
          | Json.arr xs => (xs.mapM decodeRouteElem).map (fun rs => ⟨rs⟩)
          | _ => Except.error "json: cannot unmarshal value into Go value of type []main.Route"
        else Except.ok r) ⟨[]⟩
  | _ => Except.error "json: cannot unmarshal value into Go value of type main.DirectionsResponse"

/-- Go's `strings.HasPrefix` on the underlying character lists:
`goStartsWith s p` is true when `p` is a prefix of `s`. -/
def goStartsWith : List Char → List Char → Bool
  | _, [] => true
  | [], _ :: _ => false
  | a :: s, b :: p => a == b && goStartsWith s p

/-- Go's `strings.HasPrefix(s, p)` on strings. -/
def goHasPre (s p : String) : Bool := goStartsWith s.data p.data

/-- The sentinel written by `geocodeAddress` for missing context data
("Невідомо" is Ukrainian for "unknown"). -/
def sentinel : String := "Невідомо"

/-- The `LocationInfo` literal of lines 93-100 of `src/main.go`, before the
context loop runs (coordinates from `center[0]`/`center[1]`). -/
def initLoc (f : Feature) (lon lat : ℚ) : LocationInfo :=
  { longitude := lon
    latitude := lat
    placeName := f.placeName
    country := sentinel
    region := sentinel
    city := sentinel }

/-- One iteration of the context loop (lines 102-110 of `src/main.go`). -/
def applyContext (loc : LocationInfo) (c : Context) : LocationInfo :=
  if goHasPre c.id "country" then { loc with country := c.text }
  else if goHasPre c.id "region" then { loc with region := c.text }
  else if goHasPre c.id "place" then { loc with city := c.text }
  else loc

/-- A Go `error` as produced by `fmt.Errorf` without `%w`: its only
observable payload is the formatted message string. -/
structure GoErr where
  msg : String
deriving DecidableEq, Repr

/-- Outcome of a Go call: a value, an error, or a runtime panic
(`panicked i` records the out-of-range index of a slice access). -/
inductive GoResult (α : Type) where
  | ok (val : α) : GoResult α
  | err (e : GoErr) : GoResult α
  | panicked (idx : Nat) : GoResult α
deriving DecidableEq, Repr

/-- A delivered HTTP response body: either syntactically invalid JSON
(with the decoder's cause message) or a parsed JSON value. -/
inductive RespBody where
  | invalidJson (cause : String) : RespBody
  | value (v : Json) : RespBody

/-- Result of the HTTP round trip: `http.Get` failure, `io.ReadAll`
failure, or a delivered body. -/
inductive FetchOutcome where
  | transportErr (cause : String) : FetchOutcome
  | readErr (cause : String) : FetchOutcome
  | ok (body : RespBody) : FetchOutcome

/-- Message of the `http.Get` failure branch (line 72 of `src/main.go`). -/
def httpErrMsg (cause : String) : String := "помилка HTTP запиту: " ++ cause

/-- Message of the `io.ReadAll` failure branch (line 78 / 130). -/
def readErrMsg (cause : String) : String := "помилка читання відповіді: " ++ cause

/-- Message of the `json.Unmarshal` failure branch (line 84 / 136). -/
def jsonErrMsg (cause : String) : String := "помилка парсингу JSON: " ++ cause

/-- Message returned when the feature list is empty (line 88). -/
def geoNotFoundMsg : String := "адресу не знайдено"

/-- Message returned when the route list is empty (line 140). -/
def routeNotFoundMsg : String := "маршрут не знайдено"

/-- Build the `LocationInfo` from the first feature (lines 91-112):
the struct literal reads `Center[0]` then `Center[1]` — a slice access out
of range panics — and the context loop then runs over `feature.Context`. -/
def buildLocation (f : Feature) : GoResult LocationInfo :=
  match f.center[0]?, f.center[1]? with
  | some lon, some lat => GoResult.ok (f.context.foldl applyContext (initLoc f lon lat))
  | none, _ => GoResult.panicked 0
  | some _, none => GoResult.panicked 1

/-- The response-handling part of `geocodeAddress` (lines 70-113 of
`src/main.go`), over the outcome of the HTTP fetch. -/
def geocodeAddress (fetched : FetchOutcome) : GoResult LocationInfo :=
  match fetched with
  | FetchOutcome.transportErr c => GoResult.err ⟨httpErrMsg c⟩
  | FetchOutcome.readErr c => GoResult.err ⟨readErrMsg c⟩
  | FetchOutcome.ok (RespBody.invalidJson c) => GoResult.err ⟨jsonErrMsg c⟩
  | FetchOutcome.ok (RespBody.value v) =>
      match unmarshalGeocode v with
      | Except.error c => GoResult.err ⟨jsonErrMsg c⟩
      | Except.ok resp =>
          match resp.features with
          | [] => GoResult.err ⟨geoNotFoundMsg⟩
          | f :: _ => buildLocation f

/-- The response-handling part of `getDistance` (lines 122-147 of
`src/main.go`): returns `(distance, duration)` of the first route. -/
def getDistance (fetched : FetchOutcome) : GoResult (ℚ × ℚ) :=
  match fetched with
  | FetchOutcome.transportErr c => GoResult.err ⟨httpErrMsg c⟩
  | FetchOutcome.readErr c => GoResult.err ⟨readErrMsg c⟩
  | FetchOutcome.ok (RespBody.invalidJson c) => GoResult.err ⟨jsonErrMsg c⟩
  | FetchOutcome.ok (RespBody.value v) =>
      match unmarshalDirections v with
      | Except.error c => GoResult.err ⟨jsonErrMsg c⟩
      | Except.ok resp =>
          match resp.routes with
          | [] => GoResult.err ⟨routeNotFoundMsg⟩
          | r :: _ => GoResult.ok (r.distance, r.duration)

/-- The geocoding base endpoint (line 66 of `src/main.go`). -/
def geocodeBaseURL : String := "https://api.mapbox.com/geocoding/v5/mapbox.places/"

/-- The directions base endpoint (line 116 of `src/main.go`). -/
def directionsBaseURL : String := "https://api.mapbox.com/directions/v5/mapbox/driving/"

/-- UTF-8 encoding of one character, as a list of byte values. -/
def utf8Bytes (c : Char) : List Nat :=
  let n := c.toNat
  if n < 128 then [n]
  else if n < 2048 then [192 + n / 64, 128 + n % 64]
  else if n < 65536 then [224 + n / 4096, 128 + n / 64 % 64, 128 + n % 64]
  else [240 + n / 262144, 128 + n / 4096 % 64, 128 + n / 64 % 64, 128 + n % 64]

/-- Uppercase hexadecimal digit for a value below 16. -/
def hexDigitUpper (n : Nat) : Char :=
  if n < 10 then Char.ofNat (48 + n) else Char.ofNat (55 + n)

/-- Percent-escape one byte as `%XY` with uppercase hex, as Go's `net/url` does. -/
def escapeByte (b : Nat) : List Char :=
  ['%', hexDigitUpper (b / 16 % 16), hexDigitUpper (b % 16)]

/-- Characters Go's `url.QueryEscape` leaves unescaped: ASCII alphanumerics
and `-`, `_`, `.`, `~`. -/
def isUnreservedQuery (c : Char) : Bool :=
  ('A' ≤ c && c ≤ 'Z') || ('a' ≤ c && c ≤ 'z') || ('0' ≤ c && c ≤ '9') ||
  c == '-' || c == '_' || c == '.' || c == '~'

/-- How `url.QueryEscape` renders one character: a space becomes `+`,
unreserved characters stay, every other character has each of its UTF-8
bytes percent-escaped. -/
def escapeChar (c : Char) : List Char :=
  if c == ' ' then ['+']
  else if isUnreservedQuery c then [c]
  else ((utf8Bytes c).map escapeByte).flatten

/-- Go's `url.QueryEscape` (the escaping applied to the address on line 67). -/
def queryEscape (s : String) : String := String.mk ((s.data.map escapeChar).flatten)

/-- The geocoding request URL built on lines 66-68 of `src/main.go`. -/
def geocodeURL (address accessToken : String) : String :=
  geocodeBaseURL ++ queryEscape address ++ ".json?access_token=" ++ accessToken

/-- Decimal digit character of `n % 10`. -/
def digitChar (n : Nat) : Char := Char.ofNat (48 + n % 10)

/-- Fuel-driven most-significant-first decimal digits of a natural number. -/
def natDigitsAux : Nat → Nat → List Char
  | 0, _ => []
  | fuel + 1, n => if n < 10 then [digitChar n] else natDigitsAux fuel (n / 10) ++ [digitChar n]

/-- Decimal digits of a natural number (at least one digit, `0` gives `['0']`). -/
def natDigits (n : Nat) : List Char := natDigitsAux (n + 1) n

/-- Exactly six decimal digits, the value of `n` modulo `10^6`, most significant first. -/
def padSix (n : Nat) : List Char :=
  [digitChar (n / 100000), digitChar (n / 10000), digitChar (n / 1000),
   digitChar (n / 100), digitChar (n / 10), digitChar n]

/-- Floor of a rational as an integer (floor division of numerator by denominator). -/
def ratFloor (q : ℚ) : ℤ := q.num.fdiv q.den

/-- Round a rational to the nearest integer, ties to even (the rounding of
Go's `fmt` `%f` verb). -/
def roundHalfEven (q : ℚ) : ℤ :=
  if q - ratFloor q < 1 / 2 then ratFloor q
  else if 1 / 2 < q - ratFloor q then ratFloor q + 1
  else if ratFloor q % 2 = 0 then ratFloor q else ratFloor q + 1

/-- Go's `fmt.Sprintf("%.6f", x)` on a (finite) numeric value: optional sign,
integer digits, a point, then exactly six fractional digits. -/
def formatFixed6 (q : ℚ) : String :=
  let n : ℤ := roundHalfEven (q * 1000000)
  let m : Nat := n.natAbs
  String.mk ((if n < 0 then ['-'] else []) ++ natDigits (m / 1000000) ++ ['.'] ++ padSix (m % 1000000))

/-- The coordinate pair string of `getDistance`
(`fmt.Sprintf("%.6f,%.6f;%.6f,%.6f", ...)`, lines 117-119 of `src/main.go`). -/
def coordinatesString (start finish : LocationInfo) : String :=
  formatFixed6 start.longitude ++ "," ++ formatFixed6 start.latitude ++ ";" ++
  formatFixed6 finish.longitude ++ "," ++ formatFixed6 finish.latitude

/-- The directions request URL built on lines 116-120 of `src/main.go`. -/
def getDistanceURL (start finish : LocationInfo) (accessToken : String) : String :=
  directionsBaseURL ++ coordinatesString start finish ++ "?access_token=" ++ accessToken ++
  "&geometries=geojson"

/-- Spec-side characterization: the text of the last context entry whose id
has `pre` as a prefix (the first match in the reversed list), or `dflt`
when no entry matches. -/
def lastMatchingText (pre : String) (ctxs : List Context) (dflt : String) : String :=
  match ctxs.reverse.find? (fun c => goHasPre c.id pre) with
  | some c => c.text
  | none => dflt

/-- Spec-side characterization: the string splits as `a ++ "." ++ b` where
`b` holds exactly six decimal digit characters. -/
def sixFracDigits (s : String) : Prop :=
  ∃ a : String, ∃ b : List Char,
    s = a ++ "." ++ String.mk b ∧ b.length = 6 ∧ ∀ c ∈ b, '0' ≤ c ∧ c ≤ '9'

/-- Feature decoded from `exC1Json` (center pair `[10.5, 50.2]`). -/
def exC1Feature : Feature := ⟨"", "", [(10.5 : ℚ), (50.2 : ℚ)], []⟩

/-- Geocoding response JSON with one feature whose center is `[10.5, 50.2]`. -/
def exC1Json : Json :=
  Json.obj [("features", Json.arr [Json.obj
    [("center", Json.arr [Json.num (10.5 : ℚ), Json.num (50.2 : ℚ)])]])]

/-- Two region context entries sharing the `region` id type. -/
def exC2Ctx : List Context := [⟨"region.1", "A"⟩, ⟨"region.2", "B"⟩]

/-- Feature decoded from `exC2Json`. -/
def exC2Feature : Feature := ⟨"", "", [(1 : ℚ), (2 : ℚ)], exC2Ctx⟩

/-- Geocoding response JSON whose first feature carries the two region entries. -/
def exC2Json : Json :=
  Json.obj [("features", Json.arr [Json.obj
    [("center", Json.arr [Json.num (1 : ℚ), Json.num (2 : ℚ)]),
     ("context", Json.arr
       [Json.obj [("id", Json.str "region.1"), ("text", Json.str "A")],
        Json.obj [("id", Json.str "region.2"), ("text", Json.str "B")]])]])]

/-- Feature decoded from `exC6Json` (an empty context list). -/
def exC6Feature : Feature := ⟨"Feature", "Київ, Україна", [(30.52 : ℚ), (50.45 : ℚ)], []⟩

/-- Geocoding response JSON whose first feature has no context entries. -/
def exC6Json : Json :=
  Json.obj [("features", Json.arr [Json.obj
    [("type", Json.str "Feature"),
     ("place_name", Json.str "Київ, Україна"),
     ("center", Json.arr [Json.num (30.52 : ℚ), Json.num (50.45 : ℚ)])]])]

/-- Geocoding response JSON whose first feature's center is far out of the
WGS84 coordinate ranges. -/
def exC8Json : Json :=
  Json.obj [("features", Json.arr [Json.obj
    [("center", Json.arr [Json.num (1000 : ℚ), Json.num (500 : ℚ)])]])]

/-- Feature decoded from `exC8RangeJson`. -/
def exC8RangeFeature : Feature := ⟨"", "", [(30.52 : ℚ), (50.45 : ℚ)], []⟩

/-- Geocoding response JSON whose first feature's center is inside the
WGS84 coordinate ranges. -/
def exC8RangeJson : Json :=
  Json.obj [("features", Json.arr [Json.obj
    [("center", Json.arr [Json.num (30.52 : ℚ), Json.num (50.45 : ℚ)])]])]

/-- Geocoding response JSON whose first feature has no `center` key at all. -/
def exC9Json : Json := Json.obj [("features", Json.arr [Json.obj []])]

/-- Feature decoded from `exC9OneJson` (a one-element center). -/
def exC9OneFeature : Feature := ⟨"", "", [(10.5 : ℚ)], []⟩

/-- Geocoding response JSON whose first feature's center has one element. -/
def exC9OneJson : Json :=
  Json.obj [("features", Json.arr [Json.obj
    [("center", Json.arr [Json.num (10.5 : ℚ)])]])]

/-- A provider error object: valid JSON that matches no field of the
geocoding schema. -/
def exC10Fields : List (String × Json) := [("message", Json.str "unauthorized")]

theorem str_eq_of_data {a b : String} (h : a.data = b.data) : a = b := by
  cases a with
  | mk d1 =>
      cases b with
      | mk d2 => exact congrArg String.mk h

theorem data_append (a b : String) : (a ++ b).data = a.data ++ b.data := by
  cases a; cases b; rfl

theorem getElem?_append_left' (l1 l2 : List Char) (i : Nat) (a : Char)
    (h : l1[i]? = some a) : (l1 ++ l2)[i]? = some a := by
  induction l1 generalizing i with
  | nil => simp at h
  | cons x t ih =>
      cases i with
      | zero => simpa using h
      | succ j => simpa using ih j (by simpa using h)

theorem strcat_get (s c : String) (i : Nat) (a : Char) (h : s.data[i]? = some a) :
    (s ++ c).data[i]? = some a := by
  rw [data_append]
  exact getElem?_append_left' _ _ _ _ h

theorem str_ne_of_get (s t : String) (i : Nat) (a b : Char)
    (hs : s.data[i]? = some a) (ht : t.data[i]? = some b) (hab : a ≠ b) : s ≠ t := by
  intro h
  rw [h] at hs
  rw [hs] at ht
  exact hab (Option.some.inj ht)

theorem goStartsWith_iff (p s : List Char) : goStartsWith s p = true ↔ ∃ r, s = p ++ r := by
  induction p generalizing s with
  | nil => simp [goStartsWith]
  | cons b q ih =>
      cases s with
      | nil => simp [goStartsWith]
      | cons a t =>
          simp only [goStartsWith, Bool.and_eq_true, beq_iff_eq, ih]
          constructor
          · rintro ⟨rfl, r, rfl⟩
            exact ⟨r, rfl⟩
          · rintro ⟨r, hr⟩
            obtain ⟨rfl, rfl⟩ : a = b ∧ t = q ++ r := by
              constructor
              · exact (List.cons.injEq _ _ _ _ ▸ hr).1
              · exact (List.cons.injEq _ _ _ _ ▸ hr).2
            exact ⟨rfl, r, rfl⟩

theorem goStartsWith_head_ne {a b : Char} (hab : a ≠ b) {p q s : List Char}
    (hp : goStartsWith s (a :: p) = true) : goStartsWith s (b :: q) = false := by
  cases s with
  | nil => simp [goStartsWith] at hp
  | cons x t =>
      simp only [goStartsWith, Bool.and_eq_true, beq_iff_eq] at hp
      obtain ⟨heq, -⟩ := hp
      have hb : (x == b) = false := by
        simp [heq ▸ hab]
      simp [goStartsWith, hb]

theorem country_not_region (s : String) (h : goHasPre s "country" = true) :
    goHasPre s "region" = false := by
  have hc : ("country" : String).data = 'c' :: ['o', 'u', 'n', 't', 'r', 'y'] := by decide
  have hr : ("region" : String).data = 'r' :: ['e', 'g', 'i', 'o', 'n'] := by decide
  unfold goHasPre at h ⊢
  rw [hc] at h
  rw [hr]
  exact goStartsWith_head_ne (by decide) h

theorem country_not_place (s : String) (h : goHasPre s "country" = true) :
    goHasPre s "place" = false := by
  have hc : ("country" : String).data = 'c' :: ['o', 'u', 'n', 't', 'r', 'y'] := by decide
  have hp : ("place" : String).data = 'p' :: ['l', 'a', 'c', 'e'] := by decide
  unfold goHasPre at h ⊢
  rw [hc] at h
  rw [hp]
  exact goStartsWith_head_ne (by decide) h

theorem region_not_place (s : String) (h : goHasPre s "region" = true) :
    goHasPre s "place" = false := by
  have hr : ("region" : String).data = 'r' :: ['e', 'g', 'i', 'o', 'n'] := by decide
  have hp : ("place" : String).data = 'p' :: ['l', 'a', 'c', 'e'] := by decide
  unfold goHasPre at h ⊢
  rw [hr] at h
  rw [hp]
  exact goStartsWith_head_ne (by decide) h

theorem region_not_country (s : String) (h : goHasPre s "region" = true) :
    goHasPre s "country" = false := by
  have hr : ("region" : String).data = 'r' :: ['e', 'g', 'i', 'o', 'n'] := by decide
  have hc : ("country" : String).data = 'c' :: ['o', 'u', 'n', 't', 'r', 'y'] := by decide
  unfold goHasPre at h ⊢
  rw [hr] at h
  rw [hc]
  exact goStartsWith_head_ne (by decide) h

theorem place_not_country (s : String) (h : goHasPre s "place" = true) :
    goHasPre s "country" = false := by
  have hp : ("place" : String).data = 'p' :: ['l', 'a', 'c', 'e'] := by decide
  have hc : ("country" : String).data = 'c' :: ['o', 'u', 'n', 't', 'r', 'y'] := by decide
  unfold goHasPre at h ⊢
  rw [hp] at h
  rw [hc]
  exact goStartsWith_head_ne (by decide) h

theorem place_not_region (s : String) (h : goHasPre s "place" = true) :
    goHasPre s "region" = false := by
  have hp : ("place" : String).data = 'p' :: ['l', 'a', 'c', 'e'] := by decide
  have hr : ("region" : String).data = 'r' :: ['e', 'g', 'i', 'o', 'n'] := by decide
  unfold goHasPre at h ⊢
  rw [hp] at h
  rw [hr]
  exact goStartsWith_head_ne (by decide) h

theorem applyContext_country (loc : LocationInfo) (c : Context) :
    (applyContext loc c).country =
      if goHasPre c.id "country" then c.text else loc.country := by
  unfold applyContext
  split_ifs <;> rfl

theorem applyContext_region (loc : LocationInfo) (c : Context) :
    (applyContext loc c).region =
      if goHasPre c.id "region" then c.text else loc.region := by
  unfold applyContext
  by_cases h1 : goHasPre c.id "country" = true
  · rw [if_pos h1, if_neg (by simp [country_not_region c.id h1])]
  · rw [if_neg h1]
    split_ifs <;> rfl

theorem applyContext_city (loc : LocationInfo) (c : Context) :
    (applyContext loc c).city =
      if goHasPre c.id "place" then c.text else loc.city := by
  unfold applyContext
  by_cases h1 : goHasPre c.id "country" = true
  · rw [if_pos h1, if_neg (by simp [country_not_place c.id h1])]
  · rw [if_neg h1]
    by_cases h2 : goHasPre c.id "region" = true
    · rw [if_pos h2, if_neg (by simp [region_not_place c.id h2])]
    · rw [if_neg h2]
      split_ifs <;> rfl

theorem applyContext_keeps (loc : LocationInfo) (c : Context) :
    (applyContext loc c).latitude = loc.latitude ∧
    (applyContext loc c).longitude = loc.longitude ∧
    (applyContext loc c).placeName = loc.placeName := by
  unfold applyContext
  split_ifs <;> exact ⟨rfl, rfl, rfl⟩

theorem foldl_keeps (ctxs : List Context) (loc : LocationInfo) :
    (ctxs.foldl applyContext loc).latitude = loc.latitude ∧
    (ctxs.foldl applyContext loc).longitude = loc.longitude ∧
    (ctxs.foldl applyContext loc).placeName = loc.placeName := by
  induction ctxs generalizing loc with
  | nil => exact ⟨rfl, rfl, rfl⟩
  | cons c rest ih =>
      rw [List.foldl_cons]
      obtain ⟨h1, h2, h3⟩ := ih (applyContext loc c)
      obtain ⟨k1, k2, k3⟩ := applyContext_keeps loc c
      exact ⟨h1.trans k1, h2.trans k2, h3.trans k3⟩

theorem lastMatchingText_append_pos (pre dflt : String) (l : List Context) (a : Context)
    (h : goHasPre a.id pre = true) :
    lastMatchingText pre (l ++ [a]) dflt = a.text := by
  unfold lastMatchingText
  rw [List.reverse_append]
  simp only [List.reverse_singleton, List.singleton_append]
  simp [List.find?, h]

theorem lastMatchingText_append_neg (pre dflt : String) (l : List Context) (a : Context)
    (h : goHasPre a.id pre = false) :
    lastMatchingText pre (l ++ [a]) dflt = lastMatchingText pre l dflt := by
  unfold lastMatchingText
  rw [List.reverse_append]
  simp only [List.reverse_singleton, List.singleton_append]
  simp [List.find?, h]

theorem foldl_country (ctxs : List Context) (loc : LocationInfo) :
    (ctxs.foldl applyContext loc).country = lastMatchingText "country" ctxs loc.country := by
  induction ctxs using List.reverseRecOn with
  | nil => rfl
  | append_singleton l a ih =>
      rw [List.foldl_append, List.foldl_cons, List.foldl_nil, applyContext_country]
      cases hp : goHasPre a.id "country" with
      | true => rw [if_pos rfl, lastMatchingText_append_pos _ _ _ _ hp]
      | false => rw [if_neg (by simp), lastMatchingText_append_neg _ _ _ _ hp, ih]

theorem foldl_region (ctxs : List Context) (loc : LocationInfo) :
    (ctxs.foldl applyContext loc).region = lastMatchingText "region" ctxs loc.region := by
  induction ctxs using List.reverseRecOn with
  | nil => rfl
  | append_singleton l a ih =>
      rw [List.foldl_append, List.foldl_cons, List.foldl_nil, applyContext_region]
      cases hp : goHasPre a.id "region" with
      | true => rw [if_pos rfl, lastMatchingText_append_pos _ _ _ _ hp]
      | false => rw [if_neg (by simp), lastMatchingText_append_neg _ _ _ _ hp, ih]

theorem foldl_city (ctxs : List Context) (loc : LocationInfo) :
    (ctxs.foldl applyContext loc).city = lastMatchingText "place" ctxs loc.city := by
  induction ctxs using List.reverseRecOn with
  | nil => rfl
  | append_singleton l a ih =>
      rw [List.foldl_append, List.foldl_cons, List.foldl_nil, applyContext_city]
      cases hp : goHasPre a.id "place" with
      | true => rw [if_pos rfl, lastMatchingText_append_pos _ _ _ _ hp]
      | false => rw [if_neg (by simp), lastMatchingText_append_neg _ _ _ _ hp, ih]

theorem geocode_ok_shape (v : Json) (resp : GeocodeResponse) (f : Feature)
    (rest : List Feature) (lon lat : ℚ) (more : List ℚ)
    (h1 : unmarshalGeocode v = Except.ok resp) (h2 : resp.features = f :: rest)
    (h3 : f.center = lon :: lat :: more) :
    geocodeAddress (FetchOutcome.ok (RespBody.value v)) =
      GoResult.ok (f.context.foldl applyContext (initLoc f lon lat)) := by
  simp only [geocodeAddress, h1, h2, buildLocation, h3, List.getElem?_cons_zero,
    List.getElem?_cons_succ]

theorem geoStep_skip (r : GeocodeResponse) (kv : String × Json)
    (h1 : asciiFold kv.1 ≠ "type") (h2 : asciiFold kv.1 ≠ "features") :
    geoStep r kv = Except.ok r := by
  unfold geoStep
  simp [keyMatches, h1, h2]

theorem foldlM_geoStep_skip (fields : List (String × Json)) (r : GeocodeResponse)
    (h : ∀ kv ∈ fields, asciiFold kv.1 ≠ "type" ∧ asciiFold kv.1 ≠ "features") :
    List.foldlM geoStep r fields = Except.ok r := by
  induction fields generalizing r with
  | nil => rfl
  | cons kv rest ih =>
      have hkv := h kv (by simp)
      rw [List.foldlM_cons, geoStep_skip r kv hkv.1 hkv.2]
      show List.foldlM geoStep r rest = Except.ok r
      exact ih r (fun kv' hm => h kv' (by simp [hm]))

theorem digitChar_bounds (n : Nat) : '0' ≤ digitChar n ∧ digitChar n ≤ '9' := by
  have h : n % 10 < 10 := Nat.mod_lt _ (by norm_num)
  unfold digitChar
  generalize hg : n % 10 = r at h ⊢
  interval_cases r <;> exact ⟨by decide, by decide⟩

theorem formatFixed6_sixFrac (q : ℚ) : sixFracDigits (formatFixed6 q) := by
  refine ⟨String.mk ((if roundHalfEven (q * 1000000) < 0 then ['-'] else []) ++
      natDigits ((roundHalfEven (q * 1000000)).natAbs / 1000000)),
    padSix ((roundHalfEven (q * 1000000)).natAbs % 1000000), ?_, rfl, ?_⟩
  · rfl
  · intro c hc
    simp only [padSix, List.mem_cons, List.not_mem_nil, or_false] at hc
    rcases hc with rfl | rfl | rfl | rfl | rfl | rfl <;> exact digitChar_bounds _

theorem ratFloor_intCast (n : ℤ) : ratFloor ((n : ℤ) : ℚ) = n := by
  unfold ratFloor
  simp [Rat.num_intCast, Rat.den_intCast]

theorem roundHalfEven_intCast (n : ℤ) : roundHalfEven ((n : ℤ) : ℚ) = n := by
  unfold roundHalfEven
  rw [ratFloor_intCast, sub_self]
  rw [if_pos (by norm_num : (0 : ℚ) < 1 / 2)]

theorem formatFixed6_of_int (n : ℤ) (q : ℚ) (h : q * 1000000 = (n : ℚ)) :
    formatFixed6 q = String.mk ((if n < 0 then ['-'] else []) ++
      natDigits (n.natAbs / 1000000) ++ ['.'] ++ padSix (n.natAbs % 1000000)) := by
  unfold formatFixed6
  rw [h, roundHalfEven_intCast]

theorem msg_ne_of_prefixes (s t : String) (i : Nat) (a b : Char)
    (hs : s.data[i]? = some a) (ht : t.data[i]? = some b) (hab : a ≠ b) (c1 c2 : String) :
    s ++ c1 ≠ t ++ c2 :=
  str_ne_of_get _ _ i a b (strcat_get s c1 i a hs) (strcat_get t c2 i b ht) hab

theorem msgcat_ne_const (s : String) (i : Nat) (a b : Char) (t : String)
    (hs : s.data[i]? = some a) (ht : t.data[i]? = some b) (hab : a ≠ b) (c : String) :
    s ++ c ≠ t :=
  str_ne_of_get _ _ i a b (strcat_get s c i a hs) ht hab

/-- C1: for every geocoding response whose feature list is non-empty and whose
first feature's center is the pair `lon :: lat :: _`, the Location built by
`geocodeAddress` has longitude equal to `center[0]` and latitude equal to
`center[1]` (the provider's `[longitude, latitude]` order is preserved,
not swapped). -/
theorem geocode_center_order (v : Json) (resp : GeocodeResponse) (f : Feature)
    (rest : List Feature) (lon lat : ℚ) (more : List ℚ)
    (h1 : unmarshalGeocode v = Except.ok resp) (h2 : resp.features = f :: rest)
    (h3 : f.center = lon :: lat :: more) :
    ∃ loc : LocationInfo,
      geocodeAddress (FetchOutcome.ok (RespBody.value v)) = GoResult.ok loc ∧
      loc.longitude = lon ∧ loc.latitude = lat := by
  refine ⟨_, geocode_ok_shape v resp f rest lon lat more h1 h2 h3, ?_, ?_⟩
  · exact (foldl_keeps f.context (initLoc f lon lat)).2.1
  · exact (foldl_keeps f.context (initLoc f lon lat)).1

/-- Witness for C1 at the concrete center pair `[10.5, 50.2]`. -/
theorem geocode_center_order_witness :
    ∃ loc : LocationInfo,
      geocodeAddress (FetchOutcome.ok (RespBody.value exC1Json)) = GoResult.ok loc ∧
      loc.longitude = (10.5 : ℚ) ∧ loc.latitude = (50.2 : ℚ) :=
  geocode_center_order exC1Json ⟨"", [exC1Feature]⟩ exC1Feature [] (10.5 : ℚ) (50.2 : ℚ) []
    rfl rfl rfl

/-- C2: for every geocoding response with a non-empty feature list (and a
center pair, so that construction succeeds), each of the country / region /
city fields equals the text of the last context entry of the first feature
whose id has the respective type string (`country` / `region` / `place`) as
a prefix — later matching entries override earlier ones — with the sentinel
as default. -/
theorem geocode_context_last_match (v : Json) (resp : GeocodeResponse) (f : Feature)
    (rest : List Feature) (lon lat : ℚ) (more : List ℚ)
    (h1 : unmarshalGeocode v = Except.ok resp) (h2 : resp.features = f :: rest)
    (h3 : f.center = lon :: lat :: more) :
    ∃ loc : LocationInfo,
      geocodeAddress (FetchOutcome.ok (RespBody.value v)) = GoResult.ok loc ∧
      loc.country = lastMatchingText "country" f.context sentinel ∧
      loc.region = lastMatchingText "region" f.context sentinel ∧
      loc.city = lastMatchingText "place" f.context sentinel := by
  refine ⟨_, geocode_ok_shape v resp f rest lon lat more h1 h2 h3, ?_, ?_, ?_⟩
  · exact foldl_country f.context (initLoc f lon lat)
  · exact foldl_region f.context (initLoc f lon lat)
  · exact foldl_city f.context (initLoc f lon lat)

/-- Witness for C2 at the concrete context list
`[(region.1, A), (region.2, B)]`: the region field resolves to `B`. -/
theorem geocode_context_last_match_witness :
    (∃ loc : LocationInfo,
      geocodeAddress (FetchOutcome.ok (RespBody.value exC2Json)) = GoResult.ok loc ∧
      loc.country = lastMatchingText "country" exC2Feature.context sentinel ∧
      loc.region = lastMatchingText "region" exC2Feature.context sentinel ∧
      loc.city = lastMatchingText "place" exC2Feature.context sentinel) ∧
    lastMatchingText "region" exC2Ctx sentinel = "B" :=
  ⟨geocode_context_last_match exC2Json ⟨"", [exC2Feature]⟩ exC2Feature [] (1 : ℚ) (2 : ℚ) []
    rfl rfl rfl, by decide⟩

/-- C3: a well-formed geocoding response with an empty feature list fails
with the not-found error (not the decode error and not a default Location),
and a well-formed directions response with an empty route list fails with
the route-not-found error. -/
theorem empty_results_not_found :
    (∀ (v : Json) (resp : GeocodeResponse), unmarshalGeocode v = Except.ok resp →
      resp.features = [] →
      geocodeAddress (FetchOutcome.ok (RespBody.value v)) = GoResult.err ⟨geoNotFoundMsg⟩) ∧
    (∀ (v : Json) (resp : DirectionsResponse), unmarshalDirections v = Except.ok resp →
      resp.routes = [] →
      getDistance (FetchOutcome.ok (RespBody.value v)) = GoResult.err ⟨routeNotFoundMsg⟩) := by
  constructor
  · intro v resp h1 h2
    simp only [geocodeAddress, h1, h2]
  · intro v resp h1 h2
    simp only [getDistance, h1, h2]

/-- Witness for C3 at the concrete empty-list responses. -/
theorem empty_results_not_found_witness :
    geocodeAddress (FetchOutcome.ok (RespBody.value (Json.obj [("features", Json.arr [])]))) =
      GoResult.err ⟨geoNotFoundMsg⟩ ∧
    getDistance (FetchOutcome.ok (RespBody.value (Json.obj [("routes", Json.arr [])]))) =
      GoResult.err ⟨routeNotFoundMsg⟩ :=
  ⟨empty_results_not_found.1 _ ⟨"", []⟩ rfl rfl,
   empty_results_not_found.2 _ ⟨[]⟩ rfl rfl⟩

/-- C4 counterexample: the program's errors are `fmt.Errorf` values whose
only payload is the message string, so no classifier that ignores the
message text can tell the not-found outcome from the decode-failure
outcome; the first two conjuncts exhibit the two concrete error values. -/
theorem error_kind_needs_message_cx :
    geocodeAddress (FetchOutcome.ok (RespBody.value (Json.obj [("features", Json.arr [])]))) =
      GoResult.err ⟨geoNotFoundMsg⟩ ∧
    geocodeAddress (FetchOutcome.ok (RespBody.invalidJson "unexpected end of JSON input")) =
      GoResult.err ⟨jsonErrMsg "unexpected end of JSON input"⟩ ∧
    ¬ ∃ classify : GoErr → Nat,
        (∀ s t : String, classify ⟨s⟩ = classify ⟨t⟩) ∧
        classify ⟨geoNotFoundMsg⟩ ≠ classify ⟨jsonErrMsg "unexpected end of JSON input"⟩ := by
  refine ⟨rfl, rfl, ?_⟩
  rintro ⟨f, hconst, hne⟩
  exact hne (hconst _ _)

/-- C4 (amended): the failure kinds are distinguishable, but only via the
message text: each construction site attaches a fixed message prefix and the
resulting messages are pairwise distinct for all underlying causes, while
the error value carries no other kind information. -/
theorem error_messages_pairwise_distinct (c1 c2 : String) :
    geocodeAddress (FetchOutcome.transportErr c1) = GoResult.err ⟨httpErrMsg c1⟩ ∧
    getDistance (FetchOutcome.transportErr c1) = GoResult.err ⟨httpErrMsg c1⟩ ∧
    geocodeAddress (FetchOutcome.ok (RespBody.invalidJson c1)) = GoResult.err ⟨jsonErrMsg c1⟩ ∧
    httpErrMsg c1 ≠ readErrMsg c2 ∧
    httpErrMsg c1 ≠ jsonErrMsg c2 ∧
    readErrMsg c1 ≠ jsonErrMsg c2 ∧
    httpErrMsg c1 ≠ geoNotFoundMsg ∧
    readErrMsg c1 ≠ geoNotFoundMsg ∧
    jsonErrMsg c1 ≠ geoNotFoundMsg ∧
    httpErrMsg c1 ≠ routeNotFoundMsg ∧
    readErrMsg c1 ≠ routeNotFoundMsg ∧
    jsonErrMsg c1 ≠ routeNotFoundMsg ∧
    geoNotFoundMsg ≠ routeNotFoundMsg := by
  refine ⟨rfl, rfl, rfl, ?_, ?_, ?_, ?_, ?_, ?_, ?_, ?_, ?_, by decide⟩
  · exact msg_ne_of_prefixes _ _ 8 'H' 'ч' (by decide) (by decide) (by decide) c1 c2
  · exact msg_ne_of_prefixes _ _ 8 'H' 'п' (by decide) (by decide) (by decide) c1 c2
  · exact msg_ne_of_prefixes _ _ 8 'ч' 'п' (by decide) (by decide) (by decide) c1 c2
  · exact msgcat_ne_const _ 0 'п' 'а' _ (by decide) (by decide) (by decide) c1
  · exact msgcat_ne_const _ 0 'п' 'а' _ (by decide) (by decide) (by decide) c1
  · exact msgcat_ne_const _ 0 'п' 'а' _ (by decide) (by decide) (by decide) c1
  · exact msgcat_ne_const _ 0 'п' 'м' _ (by decide) (by decide) (by decide) c1
  · exact msgcat_ne_const _ 0 'п' 'м' _ (by decide) (by decide) (by decide) c1
  · exact msgcat_ne_const _ 0 'п' 'м' _ (by decide) (by decide) (by decide) c1

/-- C5: the directions query is the base endpoint, then the origin's
longitude and latitude, a semicolon, and the destination's longitude and
latitude, each coordinate formatted as `longitude,latitude` with exactly six
digits after the decimal point; the last two conjuncts check the spec's
concrete example values. -/
theorem distance_url_six_decimals (start finish : LocationInfo) (tok : String) :
    getDistanceURL start finish tok =
      directionsBaseURL ++
        (formatFixed6 start.longitude ++ "," ++ formatFixed6 start.latitude ++ ";" ++
         formatFixed6 finish.longitude ++ "," ++ formatFixed6 finish.latitude) ++
      "?access_token=" ++ tok ++ "&geometries=geojson" ∧
    sixFracDigits (formatFixed6 start.longitude) ∧
    sixFracDigits (formatFixed6 start.latitude) ∧
    sixFracDigits (formatFixed6 finish.longitude) ∧
    sixFracDigits (formatFixed6 finish.latitude) ∧
    formatFixed6 ((-73985428 : ℚ) / 1000000) = "-73.985428" ∧
    formatFixed6 ((40748817 : ℚ) / 1000000) = "40.748817" := by
  refine ⟨rfl, formatFixed6_sixFrac _, formatFixed6_sixFrac _, formatFixed6_sixFrac _,
    formatFixed6_sixFrac _, ?_, ?_⟩
  · rw [formatFixed6_of_int (-73985428) _ (by norm_num)]
    decide
  · rw [formatFixed6_of_int 40748817 _ (by norm_num)]
    decide

/-- C6: a first feature with an empty context list still resolves: the
country / region / city fields are the sentinel and latitude, longitude and
the display name are populated from the feature. -/
theorem empty_context_sentinel (v : Json) (resp : GeocodeResponse) (f : Feature)
    (rest : List Feature) (lon lat : ℚ) (more : List ℚ)
    (h1 : unmarshalGeocode v = Except.ok resp) (h2 : resp.features = f :: rest)
    (h3 : f.center = lon :: lat :: more) (hctx : f.context = []) :
    ∃ loc : LocationInfo,
      geocodeAddress (FetchOutcome.ok (RespBody.value v)) = GoResult.ok loc ∧
      loc.country = sentinel ∧ loc.region = sentinel ∧ loc.city = sentinel ∧
      loc.longitude = lon ∧ loc.latitude = lat ∧ loc.placeName = f.placeName := by
  refine ⟨_, geocode_ok_shape v resp f rest lon lat more h1 h2 h3, ?_, ?_, ?_, ?_, ?_, ?_⟩
  · rw [hctx]
    rfl
  · rw [hctx]
    rfl
  · rw [hctx]
    rfl
  · rw [hctx]
    rfl
  · rw [hctx]
    rfl
  · rw [hctx]
    rfl

/-- Witness for C6 at a concrete feature with no context entries. -/
theorem empty_context_sentinel_witness :
    ∃ loc : LocationInfo,
      geocodeAddress (FetchOutcome.ok (RespBody.value exC6Json)) = GoResult.ok loc ∧
      loc.country = sentinel ∧ loc.region = sentinel ∧ loc.city = sentinel ∧
      loc.longitude = (30.52 : ℚ) ∧ loc.latitude = (50.45 : ℚ) ∧
      loc.placeName = exC6Feature.placeName :=
  empty_context_sentinel exC6Json ⟨"", [exC6Feature]⟩ exC6Feature [] (30.52 : ℚ) (50.45 : ℚ) []
    rfl rfl rfl rfl

/-- C7 counterexample: the address is escaped with `url.QueryEscape`, so a
space becomes `+` and is not percent-encoded — the URL built for the
address `" "` contains no percent character at all. -/
theorem geocode_url_space_not_percent :
    geocodeURL " " "T" =
      "https://api.mapbox.com/geocoding/v5/mapbox.places/+.json?access_token=T" ∧
    ¬ '%' ∈ (geocodeURL " " "T").data :=
  ⟨by decide, by decide⟩

/-- C7 (amended): the URL is the place-search base endpoint followed by the
free text escaped query-style (`url.QueryEscape`: space becomes `+`,
unreserved ASCII kept, every other byte percent-encoded), a `.json` suffix,
and the access token as a query parameter. -/
theorem geocode_url_query_escaping (address tok : String) :
    geocodeURL address tok =
      geocodeBaseURL ++ queryEscape address ++ ".json?access_token=" ++ tok ∧
    queryEscape " " = "+" ∧ queryEscape "a b" = "a+b" ∧ queryEscape "м" = "%D0%BC" :=
  ⟨rfl, by decide, by decide, by decide⟩

/-- C8 counterexample: coordinates are copied from the response without
validation, so a center of `[1000, 500]` yields a successfully constructed
Location with latitude `500 ∉ [-90, 90]` and longitude `1000 ∉ [-180, 180]`. -/
theorem location_range_cx :
    geocodeAddress (FetchOutcome.ok (RespBody.value exC8Json)) =
      GoResult.ok ⟨500, 1000, sentinel, sentinel, sentinel, ""⟩ ∧
    ¬ ((500 : ℚ) ≤ 90) ∧ ¬ ((1000 : ℚ) ≤ 180) :=
  ⟨rfl, by norm_num, by norm_num⟩

/-- C8 (amended): the coordinates are copied verbatim from the first
feature's center, so the constructed Location satisfies the WGS84 ranges
whenever the provider's center values do (and only then); no validation is
performed by the code. -/
theorem location_range_of_center_range (v : Json) (resp : GeocodeResponse) (f : Feature)
    (rest : List Feature) (lon lat : ℚ) (more : List ℚ)
    (h1 : unmarshalGeocode v = Except.ok resp) (h2 : resp.features = f :: rest)
    (h3 : f.center = lon :: lat :: more)
    (hlat1 : -90 ≤ lat) (hlat2 : lat ≤ 90) (hlon1 : -180 ≤ lon) (hlon2 : lon ≤ 180) :
    ∃ loc : LocationInfo,
      geocodeAddress (FetchOutcome.ok (RespBody.value v)) = GoResult.ok loc ∧
      -90 ≤ loc.latitude ∧ loc.latitude ≤ 90 ∧ -180 ≤ loc.longitude ∧ loc.longitude ≤ 180 := by
  refine ⟨_, geocode_ok_shape v resp f rest lon lat more h1 h2 h3, ?_, ?_, ?_, ?_⟩
  · rw [(foldl_keeps f.context (initLoc f lon lat)).1]
    exact hlat1
  · rw [(foldl_keeps f.context (initLoc f lon lat)).1]
    exact hlat2
  · rw [(foldl_keeps f.context (initLoc f lon lat)).2.1]
    exact hlon1
  · rw [(foldl_keeps f.context (initLoc f lon lat)).2.1]
    exact hlon2

/-- Witness for the amended C8 at an in-range center. -/
theorem location_range_of_center_range_witness :
    ∃ loc : LocationInfo,
      geocodeAddress (FetchOutcome.ok (RespBody.value exC8RangeJson)) = GoResult.ok loc ∧
      -90 ≤ loc.latitude ∧ loc.latitude ≤ 90 ∧ -180 ≤ loc.longitude ∧ loc.longitude ≤ 180 :=
  location_range_of_center_range exC8RangeJson ⟨"", [exC8RangeFeature]⟩ exC8RangeFeature []
    (30.52 : ℚ) (50.45 : ℚ) [] rfl rfl rfl (by norm_num) (by norm_num) (by norm_num) (by norm_num)

/-- C9 counterexample: a non-empty feature list whose first feature has no
center elements makes `geocodeAddress` panic (index out of range 0), not
return an error result. -/
theorem center_short_panics_cx :
    geocodeAddress (FetchOutcome.ok (RespBody.value exC9Json)) = GoResult.panicked 0 ∧
    (∀ e : GoErr, (GoResult.panicked 0 : GoResult LocationInfo) ≠ GoResult.err e) ∧
    (∀ loc : LocationInfo, (GoResult.panicked 0 : GoResult LocationInfo) ≠ GoResult.ok loc) :=
  ⟨rfl, fun _ h => GoResult.noConfusion h, fun _ h => GoResult.noConfusion h⟩

/-- C9 (amended): the slice accesses `Center[0]` / `Center[1]` are not
guarded: when the feature list is non-empty and the first feature's center
has fewer than two elements, `geocodeAddress` panics with an index out of
range at the first missing index (the center's length). -/
theorem center_short_panics (v : Json) (resp : GeocodeResponse) (f : Feature)
    (rest : List Feature)
    (h1 : unmarshalGeocode v = Except.ok resp) (h2 : resp.features = f :: rest)
    (hlen : f.center.length < 2) :
    geocodeAddress (FetchOutcome.ok (RespBody.value v)) =
      GoResult.panicked f.center.length := by
  have e1 : geocodeAddress (FetchOutcome.ok (RespBody.value v)) = buildLocation f := by
    simp only [geocodeAddress, h1, h2]
  rw [e1]
  unfold buildLocation
  cases hc : f.center with
  | nil => rfl
  | cons x tl =>
      cases tl with
      | nil => rfl
      | cons y tl2 =>
          rw [hc] at hlen
          simp only [List.length_cons] at hlen
          omega

/-- Witness for the amended C9 at a one-element center. -/
theorem center_short_panics_witness :
    geocodeAddress (FetchOutcome.ok (RespBody.value exC9OneJson)) = GoResult.panicked 1 ∧
    exC9OneFeature.center.length < 2 :=
  ⟨center_short_panics exC9OneJson ⟨"", [exC9OneFeature]⟩ exC9OneFeature [] rfl rfl
    (by decide), by decide⟩

/-- C10: a JSON object none of whose keys matches the `type` or `features`
fields (for example a provider error object) decodes successfully to the
zero response with an empty feature list, so `geocodeAddress` fails with the
not-found error, indistinguishable from a genuine zero-result response. -/
theorem schema_mismatch_not_found (fields : List (String × Json))
    (hkeys : ∀ kv ∈ fields, asciiFold kv.1 ≠ "type" ∧ asciiFold kv.1 ≠ "features") :
    unmarshalGeocode (Json.obj fields) = Except.ok ⟨"", []⟩ ∧
    geocodeAddress (FetchOutcome.ok (RespBody.value (Json.obj fields))) =
      GoResult.err ⟨geoNotFoundMsg⟩ ∧
    geocodeAddress (FetchOutcome.ok (RespBody.value (Json.obj fields))) =
      geocodeAddress (FetchOutcome.ok (RespBody.value (Json.obj [("features", Json.arr [])]))) := by
  have hu : unmarshalGeocode (Json.obj fields) = Except.ok ⟨"", []⟩ :=
    foldlM_geoStep_skip fields ⟨"", []⟩ hkeys
  refine ⟨hu, ?_, ?_⟩
  · simp only [geocodeAddress, hu]
  · simp only [geocodeAddress, hu]
    rfl

/-- Witness for C10 at the concrete body `(message, unauthorized)`. -/
theorem schema_mismatch_not_found_witness :
    unmarshalGeocode (Json.obj exC10Fields) = Except.ok ⟨"", []⟩ ∧
    geocodeAddress (FetchOutcome.ok (RespBody.value (Json.obj exC10Fields))) =
      GoResult.err ⟨geoNotFoundMsg⟩ ∧
    geocodeAddress (FetchOutcome.ok (RespBody.value (Json.obj exC10Fields))) =
      geocodeAddress (FetchOutcome.ok (RespBody.value (Json.obj [("features", Json.arr [])]))) :=
  schema_mismatch_not_found exC10Fields (by decide)
